import Mathlib

/-!
Verification development for the grocery-list service
(`app/models.py`, `app/schemas.py`, `app/crud.py`,
`app/routes/lists.py`, `app/routes/items.py`).

The service is embedded shallowly: the database session becomes an explicit
`DB` state threaded through every operation, each CRUD function from
`app/crud.py` becomes a pure function `DB → args → result × DB`, and each
route handler from `app/routes/*.py` becomes a function
`DB → args → Except ApiError result × DB`.  A FastAPI `HTTPException`
raised mid-handler is modelled by returning `.error e` together with the
database state as mutated so far (every CRUD call in the source commits
immediately, so state mutated before a raise stays committed); atomicity
of an operation is therefore a theorem about the returned state, never an
assumption of the model.

Timestamps: the ORM columns are declared with
`default=datetime.now(UTC)` and `onupdate=datetime.now(UTC)`; both
expressions are evaluated ONCE, at module import, producing a fixed
datetime scalar.  SQLAlchemy then uses that scalar as the value for every
insert and update.  The model carries this import-time scalar as
`DB.loadTime` and stamps it on each insert/update, exactly as the source
does.  The only genuinely current clock reading in the modelled code is
the `datetime.now()` call inside `create_grocery_list`'s auto-name
fallback, which the model takes as an explicit `now` argument.
-/

namespace Grocery

/-- Wall-clock datetime, precise to the minute (the source only ever
formats datetimes with `%Y-%m-%d` and `%Y-%m-%d %H:%M`). -/
structure DateTime where
  year : Nat
  month : Nat
  day : Nat
  hour : Nat
  minute : Nat
deriving DecidableEq, Repr

/-- Left-pad the decimal rendering of `n` with zeros to `width` digits,
as `strftime` does for `%Y`, `%m`, `%d`, `%H`, `%M`. -/
def padZero (width : Nat) (n : Nat) : String :=
  let s := toString n
  if s.length < width then String.mk (List.replicate (width - s.length) '0') ++ s else s

/-- Format `strftime('%Y-%m-%d')`. -/
def fmtYMD (d : DateTime) : String :=
  padZero 4 d.year ++ "-" ++ padZero 2 d.month ++ "-" ++ padZero 2 d.day

/-- Format `strftime('%Y-%m-%d %H:%M')`. -/
def fmtYMDHM (d : DateTime) : String :=
  fmtYMD d ++ " " ++ padZero 2 d.hour ++ ":" ++ padZero 2 d.minute

/-- Row of the `grocery_lists` relation (`GroceryListORM`). -/
structure GroceryList where
  id : Nat
  name : Option String
  stores : Option String
  description : Option String
  owner : String
  list_date : Option DateTime
  is_closed : Bool
  created_at : DateTime
  updated_at : DateTime
deriving DecidableEq, Repr

/-- Row of the `grocery_items` relation (`GroceryItemORM`).  `quantity` is a
`Float` column in the source; no claim computes with it, so it is embedded
as `Rat` to keep equality decidable. -/
structure GroceryItem where
  id : Nat
  grocery_list_id : Nat
  name : String
  quantity : Rat
  unit : Option String
  category : Option String
  store : Option String
  notes : Option String
  purchased : Bool
  created_at : DateTime
  updated_at : DateTime
deriving DecidableEq, Repr

/-- The database session state.  `loadTime` is the import-time scalar used
by the `default=` / `onupdate=` column arguments (see module header). -/
structure DB where
  lists : List GroceryList
  items : List GroceryItem
  nextListId : Nat
  nextItemId : Nat
  loadTime : DateTime
deriving DecidableEq, Repr

/-- Errors a route handler can surface: the `HTTPException`s raised in
`app/routes/*.py`, plus pydantic `ValidationError` for the
`GroceryListCreate(...)` construction performed inside the migration
handlers (surfaced as an unhandled 500 by FastAPI). -/
inductive ApiError where
  | notFound (detail : String)
  | forbidden (detail : String)
  | badRequest (detail : String)
  | validationError (detail : String)
deriving DecidableEq, Repr

/-- Python truthiness of an `Optional[str]`: `None` and `""` are falsy. -/
def optStrTruthy : Option String → Bool
  | none => false
  | some s => !s.isEmpty

/-- Python truthiness of an `Optional[int]`: `None` and `0` are falsy. -/
def optNatTruthy : Option Nat → Bool
  | none => false
  | some n => n != 0

/-! ## Schemas (`app/schemas.py`), after pydantic parsing -/

/-- Schema `GroceryListCreate`: the payload of `POST /lists/` after validation. -/
structure GroceryListCreate where
  name : Option String := none
  stores : Option String := none
  description : Option String := none
  list_date : Option DateTime := none
  is_closed : Bool := false
deriving DecidableEq, Repr

/-- Python's `str.strip()`: drop leading and trailing whitespace.  (Stated
over the character list so that it evaluates inside the kernel; Lean's
own `String.trim` is definitionally opaque to `decide`.) -/
def pyStrip (s : String) : String :=
  String.mk (((s.data.dropWhile Char.isWhitespace).reverse.dropWhile Char.isWhitespace).reverse)

/-- The `name` pipeline of `GroceryListCreate`/`GroceryListUpdate`:
`Field(min_length=1, max_length=200)` then the `name_must_not_be_empty`
validator (reject blank-after-trim, store the trimmed value). -/
def validateListName : Option String → Except String (Option String)
  | none => .ok none
  | some s =>
    if s.length < 1 then .error "String should have at least 1 character"
    else if 200 < s.length then .error "String should have at most 200 characters"
    else if pyStrip s = "" then .error "Name cannot be empty or whitespace only"
    else .ok (some (pyStrip s))

/-- The strip-to-none pipeline of optional text fields (`stores_strip`,
`description_strip`, `strip_optional_fields`): max-length check, then
blank (or empty) normalises to absent, otherwise the trimmed value. -/
def normalizeOptText (maxLen : Nat) : Option String → Except String (Option String)
  | none => .ok none
  | some s =>
    if maxLen < s.length then .error "String should have at most the maximum length"
    else if pyStrip s = "" then .ok none
    else .ok (some (pyStrip s))

/-- Constructing a `GroceryListCreate` from raw field values, running the
pydantic validation that fires when the migration handlers call
`GroceryListCreate(name=..., description=...)`. -/
def GroceryListCreate.build (name stores description : Option String)
    (list_date : Option DateTime) (is_closed : Bool) : Except String GroceryListCreate := do
  let n ← validateListName name
  let st ← normalizeOptText 500 stores
  let d ← normalizeOptText 1000 description
  .ok { name := n, stores := st, description := d, list_date := list_date, is_closed := is_closed }

/-- Schema `GroceryListUpdate`, with pydantic's `exclude_unset` presence tracking:
the outer `Option` is "was the field present in the payload", the inner
value is what gets assigned onto the ORM row.  There is no `owner` field. -/
structure GroceryListUpdate where
  name : Option (Option String) := none
  description : Option (Option String) := none
  list_date : Option (Option DateTime) := none
  is_closed : Option Bool := none
deriving DecidableEq, Repr

/-- Whether any field was present in the payload (an empty
`model_dump(exclude_unset=True)` makes the commit a no-op, so no
`onupdate` fires). -/
def GroceryListUpdate.hasFields (u : GroceryListUpdate) : Bool :=
  u.name.isSome || u.description.isSome || u.list_date.isSome || u.is_closed.isSome

/-- Schema `GroceryItemCreate` after validation. -/
structure GroceryItemCreate where
  name : String
  quantity : Rat := 1
  unit : Option String := none
  category : Option String := none
  store : Option String := none
  notes : Option String := none
  purchased : Bool := false
deriving DecidableEq, Repr

/-- Schema `GroceryItemUpdate` with `exclude_unset` presence tracking. -/
structure GroceryItemUpdate where
  name : Option String := none
  quantity : Option Rat := none
  unit : Option (Option String) := none
  category : Option (Option String) := none
  store : Option (Option String) := none
  notes : Option (Option String) := none
  purchased : Option Bool := none
deriving DecidableEq, Repr

/-- Whether any field was present in the payload. -/
def GroceryItemUpdate.hasFields (u : GroceryItemUpdate) : Bool :=
  u.name.isSome || u.quantity.isSome || u.unit.isSome || u.category.isSome ||
    u.store.isSome || u.notes.isSome || u.purchased.isSome

/-- The `validate_item_ids` validator of `ItemMigrationRequest`. -/
def validate_item_ids (v : List Nat) : Except String (List Nat) :=
  if v.isEmpty then .error "At least one item ID must be provided" else .ok v

/-- Schema `ItemMigrationRequest` (after parsing; `item_ids` nonemptiness is
checked by `validate_item_ids` at parse time and is carried as a
hypothesis where a claim needs it). -/
structure ItemMigrationRequest where
  item_ids : List Nat
  target_list_id : Option Nat := none
  new_list_name : Option String := none
  new_list_description : Option String := none
deriving DecidableEq, Repr

/-- Schema `CloseListRequest`. -/
structure CloseListRequest where
  migration : Option ItemMigrationRequest := none
deriving DecidableEq, Repr

/-! ## CRUD layer (`app/crud.py`) -/

/-- Model of `crud.get_grocery_list`: first row with the given id. -/
def get_grocery_list (db : DB) (list_id : Nat) : Option GroceryList :=
  db.lists.find? (fun l => l.id == list_id)

/-- Model of `crud.get_grocery_item`. -/
def get_grocery_item (db : DB) (item_id : Nat) : Option GroceryItem :=
  db.items.find? (fun it => it.id == item_id)

/-- Model of `crud.get_items_by_ids`: `WHERE id IN item_ids`, in table order. -/
def get_items_by_ids (db : DB) (item_ids : List Nat) : List GroceryItem :=
  db.items.filter (fun it => item_ids.contains it.id)

/-- The auto-name computation of `crud.create_grocery_list` when `name` is
falsy: date part if `list_date` is set, stores part if `stores` is truthy,
joined with `' - '`; if both are absent, `"List "` plus the current
timestamp. -/
def listAutoName (c : GroceryListCreate) (now : DateTime) : String :=
  let parts :=
    (match c.list_date with
     | some d => [fmtYMD d]
     | none => []) ++
    (match c.stores with
     | some s => if s.isEmpty then [] else [s]
     | none => [])
  if parts.isEmpty then "List " ++ fmtYMDHM now else String.intercalate " - " parts

/-- Model of `crud.create_grocery_list`.  `is_closed` is not passed to the ORM
constructor, so the column default `False` applies; `created_at` and
`updated_at` get the import-time scalar (see module header). -/
def create_grocery_list (db : DB) (c : GroceryListCreate) (owner : String)
    (now : DateTime) : GroceryList × DB :=
  let name : String :=
    match c.name with
    | some n => if n.isEmpty then listAutoName c now else n
    | none => listAutoName c now
  let l : GroceryList :=
    { id := db.nextListId, name := some name, stores := c.stores,
      description := c.description, owner := owner, list_date := c.list_date,
      is_closed := false, created_at := db.loadTime, updated_at := db.loadTime }
  (l, { db with lists := db.lists ++ [l], nextListId := db.nextListId + 1 })

/-- The `setattr` loop of `crud.update_grocery_list`: assign exactly the
fields present in `model_dump(exclude_unset=True)`. -/
def applyListUpdate (l : GroceryList) (u : GroceryListUpdate) : GroceryList :=
  { l with
    name := u.name.getD l.name,
    description := u.description.getD l.description,
    list_date := u.list_date.getD l.list_date,
    is_closed := u.is_closed.getD l.is_closed }

/-- Model of `crud.update_grocery_list`.  A nonempty patch triggers an UPDATE whose
`onupdate` stamps the import-time scalar onto `updated_at`. -/
def update_grocery_list (db : DB) (list_id : Nat) (u : GroceryListUpdate) :
    Option GroceryList × DB :=
  match get_grocery_list db list_id with
  | none => (none, db)
  | some l =>
    let l1 := applyListUpdate l u
    let l2 := if u.hasFields then { l1 with updated_at := db.loadTime } else l1
    (some l2, { db with lists := db.lists.map (fun x => if x.id == list_id then l2 else x) })

/-- Model of `crud.delete_grocery_list`: removes the list and, by the
`cascade="all, delete-orphan"` relationship, all its items. -/
def delete_grocery_list (db : DB) (list_id : Nat) : Bool × DB :=
  match get_grocery_list db list_id with
  | none => (false, db)
  | some _ =>
    (true, { db with
      lists := db.lists.filter (fun l => l.id != list_id),
      items := db.items.filter (fun it => it.grocery_list_id != list_id) })

/-- Model of `crud.create_grocery_item`. -/
def create_grocery_item (db : DB) (c : GroceryItemCreate) (list_id : Nat) :
    GroceryItem × DB :=
  let it : GroceryItem :=
    { id := db.nextItemId, grocery_list_id := list_id, name := c.name,
      quantity := c.quantity, unit := c.unit, category := c.category,
      store := c.store, notes := c.notes, purchased := c.purchased,
      created_at := db.loadTime, updated_at := db.loadTime }
  (it, { db with items := db.items ++ [it], nextItemId := db.nextItemId + 1 })

/-- The `setattr` loop of `crud.update_grocery_item`. -/
def applyItemUpdate (it : GroceryItem) (u : GroceryItemUpdate) : GroceryItem :=
  { it with
    name := u.name.getD it.name,
    quantity := u.quantity.getD it.quantity,
    unit := u.unit.getD it.unit,
    category := u.category.getD it.category,
    store := u.store.getD it.store,
    notes := u.notes.getD it.notes,
    purchased := u.purchased.getD it.purchased }

/-- Model of `crud.update_grocery_item`. -/
def update_grocery_item (db : DB) (item_id : Nat) (u : GroceryItemUpdate) :
    Option GroceryItem × DB :=
  match get_grocery_item db item_id with
  | none => (none, db)
  | some it =>
    let it1 := applyItemUpdate it u
    let it2 := if u.hasFields then { it1 with updated_at := db.loadTime } else it1
    (some it2, { db with items := db.items.map (fun x => if x.id == item_id then it2 else x) })

/-- Model of `crud.delete_grocery_item`. -/
def delete_grocery_item (db : DB) (item_id : Nat) : Bool × DB :=
  match get_grocery_item db item_id with
  | none => (false, db)
  | some _ => (true, { db with items := db.items.filter (fun it => it.id != item_id) })

/-- Model of `crud.mark_item_purchased`. -/
def mark_item_purchased (db : DB) (item_id : Nat) (purchased : Bool) :
    Option GroceryItem × DB :=
  match get_grocery_item db item_id with
  | none => (none, db)
  | some it =>
    let it2 := { it with purchased := purchased, updated_at := db.loadTime }
    (some it2, { db with items := db.items.map (fun x => if x.id == item_id then it2 else x) })

/-- Model of `crud.migrate_items_to_list`: every existing item whose id is in the
set gets `grocery_list_id := target` and `purchased := False`; ids that
match no row are simply absent from the query result. -/
def migrate_items_to_list (db : DB) (item_ids : List Nat) (target_list_id : Nat) :
    List GroceryItem × DB :=
  let items' := db.items.map (fun it =>
    if item_ids.contains it.id then
      { it with grocery_list_id := target_list_id, purchased := false,
                updated_at := db.loadTime }
    else it)
  (items'.filter (fun it => item_ids.contains it.id), { db with items := items' })

/-! ## Route handlers (`app/routes/lists.py`, `app/routes/items.py`)

Each handler takes the authenticated caller's username (extracted by
`get_current_user`) and returns the HTTP outcome together with the
database state at the moment the handler returns or raises. -/

/-- Route `GET /lists/:list_id` (`get_grocery_list_by_id`). -/
def get_grocery_list_by_id (db : DB) (list_id : Nat) (caller : String) :
    Except ApiError GroceryList × DB :=
  match get_grocery_list db list_id with
  | none => (.error (.notFound "Grocery list not found"), db)
  | some l =>
    if l.owner ≠ caller then
      (.error (.forbidden "Not authorized to access this list"), db)
    else (.ok l, db)

/-- Route `POST /lists/` (`create_new_grocery_list`). -/
def create_new_grocery_list (db : DB) (c : GroceryListCreate) (caller : String)
    (now : DateTime) : GroceryList × DB :=
  create_grocery_list db c caller now

/-- Route `PUT /lists/:list_id` (`update_grocery_list_by_id`). -/
def update_grocery_list_by_id (db : DB) (list_id : Nat) (u : GroceryListUpdate)
    (caller : String) : Except ApiError GroceryList × DB :=
  match get_grocery_list db list_id with
  | none => (.error (.notFound "Grocery list not found"), db)
  | some l =>
    if l.owner ≠ caller then
      (.error (.forbidden "Not authorized to update this list"), db)
    else
      match update_grocery_list db list_id u with
      | (some l2, db2) => (.ok l2, db2)
      | (none, db2) => (.error (.notFound "Grocery list not found"), db2)

/-- Route `DELETE /lists/:list_id` (`delete_grocery_list_by_id`). -/
def delete_grocery_list_by_id (db : DB) (list_id : Nat) (caller : String) :
    Except ApiError Unit × DB :=
  match get_grocery_list db list_id with
  | none => (.error (.notFound "Grocery list not found"), db)
  | some l =>
    if l.owner ≠ caller then
      (.error (.forbidden "Not authorized to delete this list"), db)
    else (.ok (), (delete_grocery_list db list_id).2)

/-- The shared destination-resolution block of `close_grocery_list` and
`migrate_list_items`: the `new_list_name` branch wins when truthy
(running the pydantic validation of the nested `GroceryListCreate`
construction), else a truthy `target_list_id` is looked up and
ownership-checked, else the request fails with `missingMsg`. -/
def resolveMigrationTarget (db : DB) (m : ItemMigrationRequest) (caller : String)
    (now : DateTime) (missingMsg : String) : Except ApiError Nat × DB :=
  if optStrTruthy m.new_list_name then
    match GroceryListCreate.build m.new_list_name none m.new_list_description none false with
    | .error e => (.error (.validationError e), db)
    | .ok c =>
      (.ok (create_grocery_list db c caller now).1.id, (create_grocery_list db c caller now).2)
  else if optNatTruthy m.target_list_id then
    match get_grocery_list db (m.target_list_id.getD 0) with
    | none => (.error (.notFound "Target list not found"), db)
    | some t =>
      if t.owner ≠ caller then
        (.error (.forbidden "Not authorized to access target list"), db)
      else (.ok (m.target_list_id.getD 0), db)
  else (.error (.badRequest missingMsg), db)

/-- Route `POST /lists/:list_id/close` (`close_grocery_list`). -/
def close_grocery_list (db : DB) (list_id : Nat) (req : CloseListRequest)
    (caller : String) (now : DateTime) : Except ApiError GroceryList × DB :=
  match get_grocery_list db list_id with
  | none => (.error (.notFound "Grocery list not found"), db)
  | some l =>
  if l.owner ≠ caller then
    (.error (.forbidden "Not authorized to close this list"), db)
  else
    match req.migration with
    | none =>
      match update_grocery_list db list_id { is_closed := some true } with
      | (some l2, db2) => (.ok l2, db2)
      | (none, db2) => (.error (.notFound "Grocery list not found"), db2)
    | some migration =>
      if (get_items_by_ids db migration.item_ids).isEmpty then
        (.error (.badRequest "No valid items found to migrate"), db)
      else
        match (get_items_by_ids db migration.item_ids).find?
            (fun it => it.grocery_list_id != list_id) with
        | some bad =>
          (.error (.badRequest ("Item " ++ toString bad.id ++ " does not belong to this list")), db)
        | none =>
          match resolveMigrationTarget db migration caller now
              "Either new_list_name or target_list_id must be provided for migration" with
          | (.error e, db2) => (.error e, db2)
          | (.ok target_list_id, db2) =>
            match update_grocery_list
                (migrate_items_to_list db2 migration.item_ids target_list_id).2 list_id
                { is_closed := some true } with
            | (some l2, db4) => (.ok l2, db4)
            | (none, db4) => (.error (.notFound "Grocery list not found"), db4)

/-- Route `POST /lists/:list_id/migrate-items` (`migrate_list_items`). -/
def migrate_list_items (db : DB) (list_id : Nat) (m : ItemMigrationRequest)
    (caller : String) (now : DateTime) : Except ApiError GroceryList × DB :=
  match get_grocery_list db list_id with
  | none => (.error (.notFound "Source list not found"), db)
  | some l =>
  if l.owner ≠ caller then
    (.error (.forbidden "Not authorized to access source list"), db)
  else
    if (get_items_by_ids db m.item_ids).isEmpty then
      (.error (.badRequest "No valid items found to migrate"), db)
    else
      match (get_items_by_ids db m.item_ids).find?
          (fun it => it.grocery_list_id != list_id) with
      | some bad =>
        (.error (.badRequest ("Item " ++ toString bad.id ++ " does not belong to source list")), db)
      | none =>
        match resolveMigrationTarget db m caller now
            "Either new_list_name or target_list_id must be provided" with
        | (.error e, db2) => (.error e, db2)
        | (.ok target_list_id, db2) =>
          match get_grocery_list (migrate_items_to_list db2 m.item_ids target_list_id).2
              target_list_id with
          | some t => (.ok t, (migrate_items_to_list db2 m.item_ids target_list_id).2)
          | none =>
            (.error (.notFound "Target list not found"),
              (migrate_items_to_list db2 m.item_ids target_list_id).2)

/-- Route `GET /items/:item_id` (`get_grocery_item_by_id`).  The ownership
check is `if grocery_list and grocery_list.owner != ...`: a missing
parent list skips the check entirely. -/
def get_grocery_item_by_id (db : DB) (item_id : Nat) (caller : String) :
    Except ApiError GroceryItem × DB :=
  match get_grocery_item db item_id with
  | none => (.error (.notFound "Item not found"), db)
  | some it =>
    match get_grocery_list db it.grocery_list_id with
    | some l =>
      if l.owner ≠ caller then
        (.error (.forbidden "Not authorized to access this item"), db)
      else (.ok it, db)
    | none => (.ok it, db)

/-- Route `POST /items/list/:list_id` (`create_new_grocery_item`). -/
def create_new_grocery_item (db : DB) (list_id : Nat) (c : GroceryItemCreate)
    (caller : String) : Except ApiError GroceryItem × DB :=
  match get_grocery_list db list_id with
  | none => (.error (.notFound "Grocery list not found"), db)
  | some l =>
    if l.owner ≠ caller then
      (.error (.forbidden "Not authorized to add items to this list"), db)
    else (.ok (create_grocery_item db c list_id).1, (create_grocery_item db c list_id).2)

/-- Route `PUT /items/:item_id` (`update_grocery_item_by_id`), with the same
missing-parent no-op ownership check as the item getter. -/
def update_grocery_item_by_id (db : DB) (item_id : Nat) (u : GroceryItemUpdate)
    (caller : String) : Except ApiError GroceryItem × DB :=
  match get_grocery_item db item_id with
  | none => (.error (.notFound "Item not found"), db)
  | some it =>
    match get_grocery_list db it.grocery_list_id with
    | some l =>
      if l.owner ≠ caller then
        (.error (.forbidden "Not authorized to update this item"), db)
      else
        match update_grocery_item db item_id u with
        | (some it2, db2) => (.ok it2, db2)
        | (none, db2) => (.error (.notFound "Item not found"), db2)
    | none =>
      match update_grocery_item db item_id u with
      | (some it2, db2) => (.ok it2, db2)
      | (none, db2) => (.error (.notFound "Item not found"), db2)

/-- Route `PATCH /items/:item_id/purchased` (`mark_item_as_purchased`), with
the same missing-parent no-op ownership check. -/
def mark_item_as_purchased (db : DB) (item_id : Nat) (purchased : Bool)
    (caller : String) : Except ApiError GroceryItem × DB :=
  match get_grocery_item db item_id with
  | none => (.error (.notFound "Item not found"), db)
  | some it =>
    match get_grocery_list db it.grocery_list_id with
    | some l =>
      if l.owner ≠ caller then
        (.error (.forbidden "Not authorized to update this item"), db)
      else
        match mark_item_purchased db item_id purchased with
        | (some it2, db2) => (.ok it2, db2)
        | (none, db2) => (.error (.notFound "Item not found"), db2)
    | none =>
      match mark_item_purchased db item_id purchased with
      | (some it2, db2) => (.ok it2, db2)
      | (none, db2) => (.error (.notFound "Item not found"), db2)

/-- Route `DELETE /items/:item_id` (`delete_grocery_item_by_id`), with the
same missing-parent no-op ownership check. -/
def delete_grocery_item_by_id (db : DB) (item_id : Nat) (caller : String) :
    Except ApiError Unit × DB :=
  match get_grocery_item db item_id with
  | none => (.error (.notFound "Item not found"), db)
  | some it =>
    match get_grocery_list db it.grocery_list_id with
    | some l =>
      if l.owner ≠ caller then
        (.error (.forbidden "Not authorized to delete this item"), db)
      else (.ok (), (delete_grocery_item db item_id).2)
    | none => (.ok (), (delete_grocery_item db item_id).2)

/-! ## Concrete fixtures used by witnesses and counterexamples -/

/-- Import-time timestamp of the fixture database. -/
def tLoad : DateTime := ⟨2026, 2, 28, 8, 0⟩

/-- A request-time clock reading, later than `tLoad`. -/
def tNow : DateTime := ⟨2026, 3, 1, 10, 30⟩

/-- List 1, owned by alice. -/
def listA : GroceryList :=
  { id := 1, name := some "Weekly", stores := none, description := none,
    owner := "alice", list_date := none, is_closed := false,
    created_at := tLoad, updated_at := tLoad }

/-- List 2, owned by alice. -/
def listB : GroceryList :=
  { id := 2, name := some "Pantry", stores := none, description := none,
    owner := "alice", list_date := none, is_closed := false,
    created_at := tLoad, updated_at := tLoad }

/-- List 3, owned by bob. -/
def listC : GroceryList :=
  { id := 3, name := some "Hardware", stores := none, description := none,
    owner := "bob", list_date := none, is_closed := false,
    created_at := tLoad, updated_at := tLoad }

/-- Item 1 in list 1, already purchased. -/
def itemMilk : GroceryItem :=
  { id := 1, grocery_list_id := 1, name := "Milk", quantity := 2,
    unit := none, category := none, store := none, notes := none,
    purchased := true, created_at := tLoad, updated_at := tLoad }

/-- Item 2 in list 1, not purchased. -/
def itemEggs : GroceryItem :=
  { id := 2, grocery_list_id := 1, name := "Eggs", quantity := 1,
    unit := none, category := none, store := none, notes := none,
    purchased := false, created_at := tLoad, updated_at := tLoad }

/-- Item 3 in list 2. -/
def itemJam : GroceryItem :=
  { id := 3, grocery_list_id := 2, name := "Jam", quantity := 1,
    unit := none, category := none, store := none, notes := none,
    purchased := false, created_at := tLoad, updated_at := tLoad }

/-- Item 4 whose `grocery_list_id` (99) matches no list: the dangling-item
scenario of the item routes' ownership check. -/
def itemGhost : GroceryItem :=
  { id := 4, grocery_list_id := 99, name := "Ghost", quantity := 1,
    unit := none, category := none, store := none, notes := none,
    purchased := false, created_at := tLoad, updated_at := tLoad }

/-- The fixture database. -/
def db0 : DB :=
  { lists := [listA, listB, listC], items := [itemMilk, itemEggs, itemJam, itemGhost],
    nextListId := 10, nextItemId := 10, loadTime := tLoad }

/-! ## Claims -/

/-- C3: for every list `L` (found under id `lid`) and every authenticated
caller who is not `L`'s owner, the read, update, delete, close and
migrate-items routes all fail with `Forbidden`, return none of `L`'s
contents (the result carries only the error), and leave the database —
hence `L` and its items — exactly unchanged. -/
theorem ownership_isolation (db : DB) (lid : Nat) (L : GroceryList) (caller : String)
    (now : DateTime) (u : GroceryListUpdate) (req : CloseListRequest)
    (m : ItemMigrationRequest)
    (hfind : get_grocery_list db lid = some L) (hown : L.owner ≠ caller) :
    get_grocery_list_by_id db lid caller =
      (.error (.forbidden "Not authorized to access this list"), db) ∧
    update_grocery_list_by_id db lid u caller =
      (.error (.forbidden "Not authorized to update this list"), db) ∧
    delete_grocery_list_by_id db lid caller =
      (.error (.forbidden "Not authorized to delete this list"), db) ∧
    close_grocery_list db lid req caller now =
      (.error (.forbidden "Not authorized to close this list"), db) ∧
    migrate_list_items db lid m caller now =
      (.error (.forbidden "Not authorized to access source list"), db) := by
  refine ⟨?_, ?_, ?_, ?_, ?_⟩ <;>
    simp [get_grocery_list_by_id, update_grocery_list_by_id, delete_grocery_list_by_id,
      close_grocery_list, migrate_list_items, hfind, hown]

/-- Witness for C3: bob's list 3 in the fixture database, attacked by
alice. -/
theorem ownership_isolation_witness :
    get_grocery_list db0 3 = some listC ∧ listC.owner ≠ "alice" ∧
    get_grocery_list_by_id db0 3 "alice" =
      (.error (.forbidden "Not authorized to access this list"), db0) ∧
    delete_grocery_list_by_id db0 3 "alice" =
      (.error (.forbidden "Not authorized to delete this list"), db0) :=
  ⟨by decide, by decide,
    (ownership_isolation db0 3 listC "alice" tNow {} {} ⟨[1], none, none, none⟩
      (by decide) (by decide)).1,
    (ownership_isolation db0 3 listC "alice" tNow {} {} ⟨[1], none, none, none⟩
      (by decide) (by decide)).2.2.1⟩

/-- C5: `migrate_items_to_list` leaves every migrated item — every item it
returns, and every item of the resulting state whose id is in the request
set — with `grocery_list_id` equal to the destination and `purchased`
reset to `false`, purchased-before items included. -/
theorem migrate_items_reset (db : DB) (item_ids : List Nat) (target : Nat) :
    (∀ it ∈ (migrate_items_to_list db item_ids target).1,
      it.grocery_list_id = target ∧ it.purchased = false) ∧
    (∀ it ∈ (migrate_items_to_list db item_ids target).2.items,
      item_ids.contains it.id → it.grocery_list_id = target ∧ it.purchased = false) := by
  constructor
  · intro it hmem
    simp only [migrate_items_to_list, List.mem_filter, List.mem_map] at hmem
    obtain ⟨⟨x, hxmem, hx⟩, hcont⟩ := hmem
    subst hx
    by_cases hc : x.id ∈ item_ids <;> simp_all
  · intro it hmem hcont
    simp only [migrate_items_to_list, List.mem_map] at hmem
    obtain ⟨x, hxmem, hx⟩ := hmem
    subst hx
    by_cases hc : x.id ∈ item_ids <;> simp_all

/-- Witness for C5: item 1 enters the migration purchased
(`itemMilk.purchased = true`); the row the migration returns for it — a
member of the result, discharging the theorem's membership hypothesis at
a true instance — sits on list 2 with `purchased = false` by the
theorem. -/
theorem migrate_items_reset_witness :
    itemMilk.purchased = true ∧
    ({ itemMilk with grocery_list_id := 2, purchased := false } : GroceryItem) ∈
      (migrate_items_to_list db0 [1, 2] 2).1 ∧
    (({ itemMilk with grocery_list_id := 2, purchased := false } : GroceryItem).grocery_list_id = 2 ∧
      ({ itemMilk with grocery_list_id := 2, purchased := false } : GroceryItem).purchased = false) :=
  ⟨by decide, by decide,
    (migrate_items_reset db0 [1, 2] 2).1
      { itemMilk with grocery_list_id := 2, purchased := false } (by decide)⟩

/-- C9: item operations on an item whose `grocery_list_id` resolves to no
list skip the ownership check (`if grocery_list and ...` with a falsy
`grocery_list`) and proceed for any caller: get returns the item, update,
purchase-marking and delete all return `.ok`, never `Forbidden`. -/
theorem orphan_item_ops_no_forbidden (db : DB) (item_id : Nat) (it : GroceryItem)
    (caller : String) (u : GroceryItemUpdate) (p : Bool)
    (hit : get_grocery_item db item_id = some it)
    (hparent : get_grocery_list db it.grocery_list_id = none) :
    get_grocery_item_by_id db item_id caller = (.ok it, db) ∧
    (∃ r db2, update_grocery_item_by_id db item_id u caller = (.ok r, db2)) ∧
    (∃ r db2, mark_item_as_purchased db item_id p caller = (.ok r, db2)) ∧
    (∃ db2, delete_grocery_item_by_id db item_id caller = (.ok (), db2)) := by
  refine ⟨?_, ?_, ?_, ?_⟩ <;>
    simp [get_grocery_item_by_id, update_grocery_item_by_id, mark_item_as_purchased,
      delete_grocery_item_by_id, update_grocery_item, mark_item_purchased,
      delete_grocery_item, hit, hparent]

/-- Witness for C9: the dangling item 4 (parent 99 missing) is readable
and deletable by bob, who owns nothing related to it. -/
theorem orphan_item_ops_no_forbidden_witness :
    get_grocery_item db0 4 = some itemGhost ∧
    get_grocery_list db0 itemGhost.grocery_list_id = none ∧
    get_grocery_item_by_id db0 4 "bob" = (.ok itemGhost, db0) :=
  ⟨by decide, by decide,
    (orphan_item_ops_no_forbidden db0 4 itemGhost "bob" {} true
      (by decide) (by decide)).1⟩

/-- C2: when the resolved items of a migration request contain one whose
`grocery_list_id` differs from the claimed source list, both the
standalone migrate-items route and close-with-migration fail with
`BadRequest` naming the first offending item id (the first mismatch in
query order, captured by `List.find?`), and the returned database is the
input database unchanged: every item keeps its `grocery_list_id` and
`purchased` value. -/
theorem migration_source_mismatch_atomic (db : DB) (lid : Nat)
    (m : ItemMigrationRequest) (caller : String) (now : DateTime)
    (L : GroceryList) (bad : GroceryItem)
    (hfind : get_grocery_list db lid = some L) (hown : L.owner = caller)
    (hbad : (get_items_by_ids db m.item_ids).find?
      (fun it => it.grocery_list_id != lid) = some bad) :
    migrate_list_items db lid m caller now =
      (.error (.badRequest ("Item " ++ toString bad.id ++ " does not belong to source list")), db) ∧
    close_grocery_list db lid ⟨some m⟩ caller now =
      (.error (.badRequest ("Item " ++ toString bad.id ++ " does not belong to this list")), db) := by
  have hne : (get_items_by_ids db m.item_ids).isEmpty = false := by
    cases hl : get_items_by_ids db m.item_ids with
    | nil => rw [hl] at hbad; simp [List.find?] at hbad
    | cons a as => simp
  constructor <;>
    simp [migrate_list_items, close_grocery_list, hfind, hown, hbad, hne]

/-- Witness for C2: asking list 1 to migrate items `[1, 3]` when item 3
lives in list 2 fails with `BadRequest` over item 3 and changes nothing. -/
theorem migration_source_mismatch_atomic_witness :
    get_grocery_list db0 1 = some listA ∧ listA.owner = "alice" ∧
    (get_items_by_ids db0 [1, 3]).find? (fun it => it.grocery_list_id != 1) = some itemJam ∧
    migrate_list_items db0 1 ⟨[1, 3], none, none, none⟩ "alice" tNow =
      (.error (.badRequest ("Item " ++ toString itemJam.id ++ " does not belong to source list")), db0) :=
  ⟨by decide, by decide, by decide,
    (migration_source_mismatch_atomic db0 1 ⟨[1, 3], none, none, none⟩ "alice" tNow
      listA itemJam (by decide) (by decide) (by decide)).1⟩

/-- A list lookup only reads the `lists` column family, so it is unmoved
by an update of the `items` one. -/
theorem get_list_after_items_update (db : DB) (items' : List GroceryItem) (lid : Nat) :
    get_grocery_list { db with items := items' } lid = get_grocery_list db lid := rfl

/-- C10: requested ids that resolve to no item are silently ignored: as
long as at least one id resolves (and the resolved items pass source and
destination validation), the migrate-items call succeeds, reassigns
exactly the resolved items (the state change is a map over existing rows,
so a nonexistent id moves nothing and raises nothing); only a request
whose id set resolves to zero items fails, with `BadRequest`. -/
theorem migrate_ignores_unresolved_ids :
    (∀ (db : DB) (lid : Nat) (m : ItemMigrationRequest) (caller : String)
      (now : DateTime) (L tgt : GroceryList) (tid : Nat),
      get_grocery_list db lid = some L → L.owner = caller →
      get_items_by_ids db m.item_ids ≠ [] →
      (∀ it ∈ get_items_by_ids db m.item_ids, it.grocery_list_id = lid) →
      m.new_list_name = none → m.target_list_id = some tid → tid ≠ 0 →
      get_grocery_list db tid = some tgt → tgt.owner = caller →
      migrate_list_items db lid m caller now =
        (.ok tgt,
          { db with items := db.items.map (fun it =>
              if m.item_ids.contains it.id then
                { it with grocery_list_id := tid, purchased := false,
                          updated_at := db.loadTime }
              else it) })) ∧
    (∀ (db : DB) (lid : Nat) (m : ItemMigrationRequest) (caller : String)
      (now : DateTime) (L : GroceryList),
      get_grocery_list db lid = some L → L.owner = caller →
      get_items_by_ids db m.item_ids = [] →
      migrate_list_items db lid m caller now =
        (.error (.badRequest "No valid items found to migrate"), db)) := by
  constructor
  · intro db lid m caller now L tgt tid hfind hown hres hbelong hnoname htid htid0 htgt htgtown
    have hne : (get_items_by_ids db m.item_ids).isEmpty = false := by
      cases hl : get_items_by_ids db m.item_ids with
      | nil => exact absurd hl hres
      | cons a as => simp
    have hnone : (get_items_by_ids db m.item_ids).find?
        (fun it => it.grocery_list_id != lid) = none := by
      rw [List.find?_eq_none]
      intro x hx
      simp [hbelong x hx]
    simp [migrate_list_items, hfind, hown, hne, hnone, resolveMigrationTarget,
      hnoname, htid, optStrTruthy, optNatTruthy, htid0,
      migrate_items_to_list, get_list_after_items_update, htgt, htgtown]
  · intro db lid m caller now L hfind hown hempty
    simp [migrate_list_items, hfind, hown, hempty]

/-- Witness for C10: migrating `[2, 99]` out of list 1 — id 99 matches no
item — succeeds, moving only item 2 into list 2; and on a set resolving
to nothing, the call fails with `BadRequest`. -/
theorem migrate_ignores_unresolved_ids_witness :
    get_items_by_ids db0 [2, 99] = [itemEggs] ∧
    migrate_list_items db0 1 ⟨[2, 99], some 2, none, none⟩ "alice" tNow =
      (.ok listB,
        { db0 with items := db0.items.map (fun it =>
            if [2, 99].contains it.id then
              { it with grocery_list_id := 2, purchased := false,
                        updated_at := db0.loadTime }
            else it) }) ∧
    migrate_list_items db0 1 ⟨[100], none, none, none⟩ "alice" tNow =
      (.error (.badRequest "No valid items found to migrate"), db0) :=
  ⟨by decide,
    migrate_ignores_unresolved_ids.1 db0 1 ⟨[2, 99], some 2, none, none⟩ "alice" tNow
      listA listB 2 (by decide) (by decide) (by decide) (by decide) (by decide)
      (by decide) (by decide) (by decide) (by decide),
    migrate_ignores_unresolved_ids.2 db0 1 ⟨[100], none, none, none⟩ "alice" tNow
      listA (by decide) (by decide) (by decide)⟩

/-- Counterexample for C4: a migration payload carrying BOTH destination
descriptors (`target_list_id = 1` and `new_list_name = "Fresh"`) is not
rejected: the migrate-items route processes it, taking the
`new_list_name` branch. -/
theorem migration_both_descriptors_processed :
    ∃ r db2, migrate_list_items db0 2 ⟨[3], some 1, some "Fresh", none⟩ "alice" tNow =
      (.ok r, db2) :=
  ⟨_, _, rfl⟩

/-- C4 (amended): every migration payload must supply a non-empty
`item_ids` set (`validate_item_ids` rejects an empty one); a payload with
neither destination descriptor fails `BadRequest` ("must be provided");
a payload with both descriptors is processed, `new_list_name` taking
precedence — the outcome is the same as if `target_list_id` were absent. -/
theorem migration_destination_amended :
    (validate_item_ids [] = .error "At least one item ID must be provided") ∧
    (∀ (db : DB) (lid : Nat) (m : ItemMigrationRequest) (caller : String)
      (now : DateTime) (L : GroceryList),
      get_grocery_list db lid = some L → L.owner = caller →
      get_items_by_ids db m.item_ids ≠ [] →
      (∀ it ∈ get_items_by_ids db m.item_ids, it.grocery_list_id = lid) →
      optStrTruthy m.new_list_name = false → optNatTruthy m.target_list_id = false →
      migrate_list_items db lid m caller now =
        (.error (.badRequest "Either new_list_name or target_list_id must be provided"), db)) ∧
    (∀ (db : DB) (lid : Nat) (m : ItemMigrationRequest) (caller : String)
      (now : DateTime),
      optStrTruthy m.new_list_name = true →
      migrate_list_items db lid m caller now =
        migrate_list_items db lid { m with target_list_id := none } caller now) := by
  refine ⟨rfl, ?_, ?_⟩
  · intro db lid m caller now L hfind hown hres hbelong hnoname hnotid
    have hne : (get_items_by_ids db m.item_ids).isEmpty = false := by
      cases hl : get_items_by_ids db m.item_ids with
      | nil => exact absurd hl hres
      | cons a as => simp
    have hnone : (get_items_by_ids db m.item_ids).find?
        (fun it => it.grocery_list_id != lid) = none := by
      rw [List.find?_eq_none]
      intro x hx
      simp [hbelong x hx]
    simp [migrate_list_items, hfind, hown, hne, hnone, resolveMigrationTarget,
      hnoname, hnotid]
  · intro db lid m caller now hname
    simp [migrate_list_items, resolveMigrationTarget, hname]

/-- Witness for C4 (amended): the empty id set is rejected at parse time;
a destination-free payload on list 1 fails `BadRequest`; the
both-descriptors payload of the counterexample behaves exactly as the
same payload without `target_list_id`. -/
theorem migration_destination_amended_witness :
    validate_item_ids [] = .error "At least one item ID must be provided" ∧
    migrate_list_items db0 1 ⟨[1], none, none, none⟩ "alice" tNow =
      (.error (.badRequest "Either new_list_name or target_list_id must be provided"), db0) ∧
    migrate_list_items db0 2 ⟨[3], some 1, some "Fresh", none⟩ "alice" tNow =
      migrate_list_items db0 2 ⟨[3], none, some "Fresh", none⟩ "alice" tNow :=
  ⟨migration_destination_amended.1,
    migration_destination_amended.2.1 db0 1 ⟨[1], none, none, none⟩ "alice" tNow listA
      (by decide) (by decide) (by decide) (by decide) (by decide) (by decide),
    migration_destination_amended.2.2 db0 2 ⟨[3], some 1, some "Fresh", none⟩ "alice" tNow
      (by decide)⟩

/-- Two evaluation rules for `' - '.join` on the at-most-two-element part
lists of the auto-namer. -/
theorem intercalate_pair (sep a b : String) :
    String.intercalate sep [a, b] = a ++ sep ++ b := rfl

/-- Joining a single part with `' - '` is that part. -/
theorem intercalate_single (sep a : String) : String.intercalate sep [a] = a := rfl

/-- C7: with no name supplied, list creation auto-derives the name: date
and stores both present gives `"{date %Y-%m-%d} - {stores}"`, exactly one
present gives that one alone (the date formatted `%Y-%m-%d`), neither
gives `"List {now %Y-%m-%d %H:%M}"`. -/
theorem create_list_autoname (db : DB) (c : GroceryListCreate) (owner : String)
    (now : DateTime) (hname : c.name = none) :
    (∀ d s, c.list_date = some d → c.stores = some s → s ≠ "" →
      (create_grocery_list db c owner now).1.name = some (fmtYMD d ++ " - " ++ s)) ∧
    (∀ d, c.list_date = some d → c.stores = none →
      (create_grocery_list db c owner now).1.name = some (fmtYMD d)) ∧
    (∀ s, c.list_date = none → c.stores = some s → s ≠ "" →
      (create_grocery_list db c owner now).1.name = some s) ∧
    (c.list_date = none → c.stores = none →
      (create_grocery_list db c owner now).1.name = some ("List " ++ fmtYMDHM now)) := by
  have hempty : ∀ s : String, s ≠ "" → s.isEmpty = false := by
    intro s hs
    cases he : s.isEmpty
    · rfl
    · exact absurd (by simpa [String.isEmpty_iff] using he) hs
  refine ⟨?_, ?_, ?_, ?_⟩
  · intro d s hd hs hsne
    simp [create_grocery_list, listAutoName, hname, hd, hs, hempty s hsne,
      intercalate_pair]
  · intro d hd hs
    simp [create_grocery_list, listAutoName, hname, hd, hs, intercalate_single]
  · intro s hd hs hsne
    simp [create_grocery_list, listAutoName, hname, hd, hs, hempty s hsne,
      intercalate_single]
  · intro hd hs
    simp [create_grocery_list, listAutoName, hname, hd, hs]

/-- Witness for C7: list_date 2026-03-01 with stores "Costco" yields
"2026-03-01 - Costco"; with neither set the name is "List " plus the
request-time clock reading. -/
theorem create_list_autoname_witness :
    (create_grocery_list db0 ⟨none, some "Costco", none, some ⟨2026, 3, 1, 0, 0⟩, false⟩
        "alice" tNow).1.name = some "2026-03-01 - Costco" ∧
    (create_grocery_list db0 ⟨none, none, none, none, false⟩ "alice" tNow).1.name =
      some "List 2026-03-01 10:30" :=
  ⟨(create_list_autoname db0 ⟨none, some "Costco", none, some ⟨2026, 3, 1, 0, 0⟩, false⟩
      "alice" tNow rfl).1 ⟨2026, 3, 1, 0, 0⟩ "Costco" rfl rfl (by decide),
    (create_list_autoname db0 ⟨none, none, none, none, false⟩
      "alice" tNow rfl).2.2.2 rfl rfl⟩

/-- C6: a quantity-only item update applies exactly the present field —
name, unit, category, store, notes and purchased keep their stored
values — but `updated_at` does NOT advance: the ORM's
`onupdate=datetime.now(UTC)` was evaluated once at import, so every
update stamps the same import-time scalar (`DB.loadTime`).  The second
conjunct evaluates the failing input: item 1 of the fixture database,
created in this process run, keeps `updated_at` exactly unchanged across
the update. -/
theorem item_update_quantity_frame_frozen_timestamp :
    (∀ (db : DB) (item_id : Nat) (q : Rat) (it : GroceryItem),
      get_grocery_item db item_id = some it →
      (update_grocery_item db item_id { quantity := some q }).1 =
        some { it with quantity := q, updated_at := db.loadTime }) ∧
    (∃ it2, (update_grocery_item db0 1 { quantity := some 3 }).1 = some it2 ∧
      it2.quantity = 3 ∧
      it2.name = itemMilk.name ∧ it2.unit = itemMilk.unit ∧
      it2.category = itemMilk.category ∧ it2.store = itemMilk.store ∧
      it2.notes = itemMilk.notes ∧ it2.purchased = itemMilk.purchased ∧
      it2.updated_at = itemMilk.updated_at) := by
  constructor
  · intro db item_id q it hit
    simp [update_grocery_item, hit, applyItemUpdate, GroceryItemUpdate.hasFields]
  · exact ⟨{ itemMilk with quantity := 3, updated_at := tLoad }, by decide⟩

/-- Witness for C6's universally quantified conjunct, at item 2 of the
fixture database. -/
theorem item_update_quantity_frame_frozen_timestamp_witness :
    get_grocery_item db0 2 = some itemEggs ∧
    (update_grocery_item db0 2 { quantity := some 5 }).1 =
      some { itemEggs with quantity := 5, updated_at := db0.loadTime } :=
  ⟨by decide,
    item_update_quantity_frame_frozen_timestamp.1 db0 2 5 itemEggs (by decide)⟩

/-- Every error outcome of destination resolution leaves the database
untouched: each failing branch returns the input state. -/
theorem resolveMigrationTarget_error (db : DB) (m : ItemMigrationRequest)
    (caller : String) (now : DateTime) (msg : String) (e : ApiError) (db2 : DB)
    (h : resolveMigrationTarget db m caller now msg = (.error e, db2)) : db2 = db := by
  unfold resolveMigrationTarget at h
  split at h
  · split at h
    · injection h with h1 h2
      exact h2.symm
    · simp [create_grocery_list] at h
  · split at h
    · split at h
      · injection h with h1 h2
        exact h2.symm
      · split at h
        · injection h with h1 h2
          exact h2.symm
        · simp at h
    · injection h with h1 h2
      exact h2.symm

/-- A successful destination resolution either leaves the list relation
unchanged (existing target) or appends exactly one new list (created
target). -/
theorem resolveMigrationTarget_ok_lists (db : DB) (m : ItemMigrationRequest)
    (caller : String) (now : DateTime) (msg : String) (tid : Nat) (db2 : DB)
    (h : resolveMigrationTarget db m caller now msg = (.ok tid, db2)) :
    db2.lists = db.lists ∨ ∃ nl, db2.lists = db.lists ++ [nl] := by
  unfold resolveMigrationTarget at h
  split at h
  · split at h
    · simp at h
    · simp [create_grocery_list] at h
      right
      exact ⟨_, by rw [← h.2]⟩
  · split at h
    · split at h
      · simp at h
      · split at h
        · simp at h
        · injection h with h1 h2
          subst h2
          exact .inl rfl
    · simp at h

/-- C1: if close-with-migration fails for any reason — list not found,
not the owner, empty resolved item set, an item not belonging to the
source list, an unresolvable or forbidden destination, or an invalid
new-list name — the returned database is the input database unchanged:
the source list's `is_closed` is still `false` (whatever it was) and no
item's `grocery_list_id` or `purchased` moved.  Mutation only begins
after every validation has passed, so a failing close has no observable
partial state change. -/
theorem close_validation_failure_atomic (db : DB) (lid : Nat) (req : CloseListRequest)
    (caller : String) (now : DateTime) (e : ApiError) (db' : DB)
    (h : close_grocery_list db lid req caller now = (.error e, db')) :
    db' = db := by
  unfold close_grocery_list at h
  cases hfind : get_grocery_list db lid with
  | none =>
    simp only [hfind] at h
    injection h with h1 h2
    exact h2.symm
  | some l =>
    simp only [hfind] at h
    by_cases hown : l.owner = caller
    · rw [if_neg (fun hc => hc hown)] at h
      cases hm : req.migration with
      | none =>
        simp only [hm] at h
        simp [update_grocery_list, hfind] at h
      | some migration =>
        simp only [hm] at h
        cases hemp : (get_items_by_ids db migration.item_ids).isEmpty with
        | true =>
          rw [if_pos hemp] at h
          injection h with h1 h2
          exact h2.symm
        | false =>
          rw [if_neg (by simp [hemp])] at h
          cases hfb : (get_items_by_ids db migration.item_ids).find?
              (fun it => it.grocery_list_id != lid) with
          | some bad =>
            simp only [hfb] at h
            injection h with h1 h2
            exact h2.symm
          | none =>
            simp only [hfb] at h
            cases hres : resolveMigrationTarget db migration caller now
                "Either new_list_name or target_list_id must be provided for migration" with
            | mk r db2 =>
              cases r with
              | error e2 =>
                simp only [hres] at h
                injection h with h1 h2
                exact h2.symm.trans
                  (resolveMigrationTarget_error db migration caller now _ e2 db2 hres)
              | ok tid =>
                simp only [hres] at h
                have hg : get_grocery_list db2 lid = some l := by
                  rcases resolveMigrationTarget_ok_lists db migration caller now _ tid db2 hres with
                    h1 | ⟨nl, h2⟩
                  · unfold get_grocery_list at hfind ⊢
                    rw [h1, hfind]
                  · unfold get_grocery_list at hfind ⊢
                    rw [h2, List.find?_append, hfind]
                    rfl
                simp [migrate_items_to_list, update_grocery_list,
                  get_list_after_items_update, hg] at h
    · rw [if_pos hown] at h
      injection h with h1 h2
      exact h2.symm

/-- Witness for C1: closing list 1 while migrating item 3 — which lives
in list 2 — fails and leaves the fixture database byte-for-byte
unchanged; in particular list 1 is still open. -/
theorem close_validation_failure_atomic_witness :
    close_grocery_list db0 1 ⟨some ⟨[3], some 2, none, none⟩⟩ "alice" tNow =
      (.error (.badRequest "Item 3 does not belong to this list"),
        db0) ∧
    (close_grocery_list db0 1 ⟨some ⟨[3], some 2, none, none⟩⟩ "alice" tNow).2 = db0 ∧
    (get_grocery_list db0 1).map GroceryList.is_closed = some false :=
  ⟨by rfl,
    close_validation_failure_atomic db0 1 ⟨some ⟨[3], some 2, none, none⟩⟩ "alice" tNow
      (.badRequest "Item 3 does not belong to this list") db0 (by rfl),
    by decide⟩

/-- Owner stability across an operation: any list readable by id both
before and after the operation has the same owner afterwards as before.
An operation that rewrote any existing list's owner — to the caller or to
anyone else — falsifies this. -/
def listOwnerStable (db db' : DB) : Prop :=
  ∀ (lid : Nat) (l l' : GroceryList),
    get_grocery_list db lid = some l → get_grocery_list db' lid = some l' →
    l'.owner = l.owner

/-- An operation that does not touch the list relation is owner-stable. -/
theorem listOwnerStable_of_lists_eq {db db' : DB} (h : db'.lists = db.lists) :
    listOwnerStable db db' := by
  intro lid l l' hl hl'
  unfold get_grocery_list at hl hl'
  rw [h, hl] at hl'
  injection hl' with he
  subst he
  rfl

/-- Mapping an id-preserving function over the rows sends the first match
of an id query to the image of the first match. -/
theorem find?_map_pres {α : Type} (p : α → Bool) (f : α → α) (l : List α) (a : α)
    (hpres : ∀ x, p (f x) = p x) (h : l.find? p = some a) :
    (l.map f).find? p = some (f a) := by
  induction l with
  | nil => simp [List.find?] at h
  | cons x xs ih =>
    rw [List.map_cons]
    cases hpx : p x with
    | true =>
      rw [List.find?_cons_of_pos xs hpx] at h
      injection h with he
      subst he
      exact List.find?_cons_of_pos _ (by rw [hpres]; exact hpx)
    | false =>
      rw [List.find?_cons_of_neg xs (by simp [hpx])] at h
      rw [List.find?_cons_of_neg _ (by simp [hpres, hpx])]
      exact ih h

/-- Filtering away only rows the query cannot match leaves the first
match unchanged. -/
theorem find?_filter_excl {α : Type} (p q : α → Bool) (l : List α)
    (himp : ∀ x, p x = true → q x = true) :
    (l.filter q).find? p = l.find? p := by
  induction l with
  | nil => rfl
  | cons x xs ih =>
    cases hq : q x with
    | true =>
      rw [List.filter_cons_of_pos hq]
      cases hp : p x with
      | true => rw [List.find?_cons_of_pos _ hp, List.find?_cons_of_pos _ hp]
      | false =>
        rw [List.find?_cons_of_neg _ (by simp [hp]), List.find?_cons_of_neg _ (by simp [hp])]
        exact ih
    | false =>
      rw [List.filter_cons_of_neg (by simp [hq])]
      have hp : p x = false := by
        cases hpx : p x
        · rfl
        · exact absurd (himp x hpx) (by simp [hq])
      rw [List.find?_cons_of_neg _ (by simp [hp])]
      exact ih

/-- Creation only appends a fresh row, so every lookup that succeeded
before the create returns the very same row after it. -/
theorem get_list_after_create (db : DB) (c : GroceryListCreate) (owner : String)
    (now : DateTime) (lid : Nat) (l : GroceryList)
    (h : get_grocery_list db lid = some l) :
    get_grocery_list (create_grocery_list db c owner now).2 lid = some l := by
  unfold get_grocery_list at h ⊢
  unfold create_grocery_list
  dsimp only
  rw [List.find?_append, h]
  rfl

/-- Destination resolution either leaves the list relation alone or runs
a create; in both cases pre-existing lookups are untouched. -/
theorem get_list_after_resolveTarget (db : DB) (m : ItemMigrationRequest)
    (caller : String) (now : DateTime) (msg : String) (lid : Nat) (l : GroceryList)
    (h : get_grocery_list db lid = some l) :
    get_grocery_list (resolveMigrationTarget db m caller now msg).2 lid = some l := by
  unfold resolveMigrationTarget
  split
  · split
    · exact h
    · exact get_list_after_create db _ caller now lid l h
  · split
    · split
      · exact h
      · split
        · exact h
        · exact h
    · exact h

/-- Item migration touches only the item relation. -/
theorem get_list_after_migrate (db : DB) (ids : List Nat) (tid lid : Nat) :
    get_grocery_list (migrate_items_to_list db ids tid).2 lid = get_grocery_list db lid := rfl

/-- The update CRUD rewrites name/description/list_date/is_closed and the
timestamp of the rows carrying the target id; any list readable before is
readable after under the same id, with its owner intact. -/
theorem get_list_after_update (db : DB) (lid0 : Nat) (u : GroceryListUpdate)
    (lid : Nat) (l : GroceryList) (h : get_grocery_list db lid = some l) :
    ∃ l2, get_grocery_list (update_grocery_list db lid0 u).2 lid = some l2 ∧
      l2.owner = l.owner := by
  unfold update_grocery_list
  cases hfound : get_grocery_list db lid0 with
  | none => exact ⟨l, h, rfl⟩
  | some lf =>
    dsimp only
    have hfid : lf.id = lid0 := by simpa using List.find?_some hfound
    have hlid : l.id = lid := by simpa using List.find?_some h
    unfold get_grocery_list at h hfound ⊢
    refine ⟨_, find?_map_pres _ _ db.lists l ?_ h, ?_⟩
    · intro x
      by_cases hx : x.id = lid0
      · simp only [hx, beq_self_eq_true, if_true]
        cases hf : u.hasFields <;> simp [hf, applyListUpdate, hfid, hx]
      · simp [hx]
    · by_cases hl0 : l.id = lid0
      · have hll : lid = lid0 := by rw [← hlid]; exact hl0
        subst hll
        rw [h] at hfound
        injection hfound with hlf
        subst hlf
        simp only [hl0, beq_self_eq_true, if_true]
        cases hf : u.hasFields <;> simp [hf, applyListUpdate]
      · simp [hl0]

/-- Deletion removes exactly the rows with the target id; any other list
readable before is returned verbatim after. -/
theorem get_list_after_delete (db : DB) (lid0 lid : Nat) (l l' : GroceryList)
    (h : get_grocery_list db lid = some l)
    (h' : get_grocery_list (delete_grocery_list db lid0).2 lid = some l') :
    l' = l := by
  unfold delete_grocery_list at h'
  cases hfound : get_grocery_list db lid0 with
  | none =>
    rw [hfound] at h'
    dsimp only at h'
    rw [h] at h'
    exact (Option.some.inj h').symm
  | some lf =>
    rw [hfound] at h'
    dsimp only at h'
    unfold get_grocery_list at h h'
    by_cases heq : lid = lid0
    · subst heq
      rw [List.find?_eq_none.mpr ?_] at h'
      · cases h'
      · intro x hx
        simp only [List.mem_filter] at hx
        simpa using hx.2
    · rw [find?_filter_excl _ _ _ ?_] at h'
      · rw [h] at h'
        exact (Option.some.inj h').symm
      · intro x hpx
        simp only [beq_iff_eq] at hpx
        simp [hpx, heq]

/-- CRUD-level owner stability of the list update. -/
theorem update_list_ownerStable (db : DB) (lid0 : Nat) (u : GroceryListUpdate) :
    listOwnerStable db (update_grocery_list db lid0 u).2 := by
  intro lid l l' h h'
  rcases get_list_after_update db lid0 u lid l h with ⟨l2, hg, how⟩
  rw [hg] at h'
  injection h' with he
  subst he
  exact how

/-- CRUD-level owner stability of the list create. -/
theorem create_list_ownerStable (db : DB) (c : GroceryListCreate) (owner : String)
    (now : DateTime) : listOwnerStable db (create_grocery_list db c owner now).2 := by
  intro lid l l' h h'
  rw [get_list_after_create db c owner now lid l h] at h'
  injection h' with he
  subst he
  rfl

/-- CRUD-level owner stability of the cascading list delete. -/
theorem delete_list_ownerStable (db : DB) (lid0 : Nat) :
    listOwnerStable db (delete_grocery_list db lid0).2 := by
  intro lid l l' h h'
  have := get_list_after_delete db lid0 lid l l' h h'
  subst this
  rfl

/-- Owner stability of destination resolution. -/
theorem resolveTarget_ownerStable (db : DB) (m : ItemMigrationRequest)
    (caller : String) (now : DateTime) (msg : String) :
    listOwnerStable db (resolveMigrationTarget db m caller now msg).2 := by
  intro lid l l' h h'
  rw [get_list_after_resolveTarget db m caller now msg lid l h] at h'
  injection h' with he
  subst he
  rfl

/-- C8: no operation ever changes a list's owner.  Creation stamps the
caller as owner, and across every route — create, update, delete, close
(with or without migration), migrate-items, and the four item
operations — any list readable by id both before and after the call has
exactly the same owner afterwards as before: the only owner ever written
is the creating caller's, onto a freshly appended row. -/
theorem list_owner_immutable :
    (∀ (db : DB) (c : GroceryListCreate) (caller : String) (now : DateTime),
      (create_new_grocery_list db c caller now).1.owner = caller ∧
      listOwnerStable db (create_new_grocery_list db c caller now).2) ∧
    (∀ (db : DB) (lid : Nat) (u : GroceryListUpdate) (caller : String),
      listOwnerStable db (update_grocery_list_by_id db lid u caller).2) ∧
    (∀ (db : DB) (lid : Nat) (caller : String),
      listOwnerStable db (delete_grocery_list_by_id db lid caller).2) ∧
    (∀ (db : DB) (lid : Nat) (req : CloseListRequest) (caller : String) (now : DateTime),
      listOwnerStable db (close_grocery_list db lid req caller now).2) ∧
    (∀ (db : DB) (lid : Nat) (m : ItemMigrationRequest) (caller : String) (now : DateTime),
      listOwnerStable db (migrate_list_items db lid m caller now).2) ∧
    (∀ (db : DB) (lid : Nat) (c : GroceryItemCreate) (caller : String),
      listOwnerStable db (create_new_grocery_item db lid c caller).2) ∧
    (∀ (db : DB) (iid : Nat) (u : GroceryItemUpdate) (caller : String),
      listOwnerStable db (update_grocery_item_by_id db iid u caller).2) ∧
    (∀ (db : DB) (iid : Nat) (p : Bool) (caller : String),
      listOwnerStable db (mark_item_as_purchased db iid p caller).2) ∧
    (∀ (db : DB) (iid : Nat) (caller : String),
      listOwnerStable db (delete_grocery_item_by_id db iid caller).2) := by
  refine ⟨?_, ?_, ?_, ?_, ?_, ?_, ?_, ?_, ?_⟩
  · intro db c caller now
    exact ⟨rfl, create_list_ownerStable db c caller now⟩
  · intro db lid u caller
    unfold update_grocery_list_by_id
    cases hfind : get_grocery_list db lid with
    | none => exact listOwnerStable_of_lists_eq rfl
    | some l0 =>
      simp only [hfind]
      by_cases hown : l0.owner = caller
      · rw [if_neg (fun hc => hc hown)]
        have hu := update_list_ownerStable db lid u
        cases hupdate : update_grocery_list db lid u with
        | mk r db2 =>
          rw [hupdate] at hu
          cases r <;> exact hu
      · rw [if_pos hown]
        exact listOwnerStable_of_lists_eq rfl
  · intro db lid caller
    unfold delete_grocery_list_by_id
    cases hfind : get_grocery_list db lid with
    | none => exact listOwnerStable_of_lists_eq rfl
    | some l0 =>
      simp only [hfind]
      by_cases hown : l0.owner = caller
      · rw [if_neg (fun hc => hc hown)]
        exact delete_list_ownerStable db lid
      · rw [if_pos hown]
        exact listOwnerStable_of_lists_eq rfl
  · intro db lid req caller now
    unfold close_grocery_list
    cases hfind : get_grocery_list db lid with
    | none => exact listOwnerStable_of_lists_eq rfl
    | some l0 =>
      simp only [hfind]
      by_cases hown : l0.owner = caller
      · rw [if_neg (fun hc => hc hown)]
        cases hm : req.migration with
        | none =>
          have hu := update_list_ownerStable db lid { is_closed := some true }
          cases hupdate : update_grocery_list db lid { is_closed := some true } with
          | mk r db2 =>
            rw [hupdate] at hu
            cases r <;> exact hu
        | some migration =>
          dsimp only
          by_cases hemp : (get_items_by_ids db migration.item_ids).isEmpty = true
          · rw [if_pos hemp]
            exact listOwnerStable_of_lists_eq rfl
          · rw [if_neg hemp]
            cases hfb : (get_items_by_ids db migration.item_ids).find?
                (fun it => it.grocery_list_id != lid) with
            | some bad => exact listOwnerStable_of_lists_eq rfl
            | none =>
              simp only [hfb]
              cases hres : resolveMigrationTarget db migration caller now
                  "Either new_list_name or target_list_id must be provided for migration" with
              | mk r db2 =>
                cases r with
                | error e =>
                  have hr := resolveTarget_ownerStable db migration caller now
                    "Either new_list_name or target_list_id must be provided for migration"
                  rw [hres] at hr
                  exact hr
                | ok tid =>
                  dsimp only
                  intro lq l l' hq hq'
                  have h2 := get_list_after_resolveTarget db migration caller now
                    "Either new_list_name or target_list_id must be provided for migration"
                    lq l hq
                  rw [hres] at h2
                  dsimp only at h2
                  have h3 : get_grocery_list
                      (migrate_items_to_list db2 migration.item_ids tid).2 lq = some l := by
                    rw [get_list_after_migrate]
                    exact h2
                  rcases get_list_after_update
                      (migrate_items_to_list db2 migration.item_ids tid).2 lid
                      { is_closed := some true } lq l h3 with ⟨l2, hg, how⟩
                  cases hupdate : update_grocery_list
                      (migrate_items_to_list db2 migration.item_ids tid).2 lid
                      { is_closed := some true } with
                  | mk r2 db4 =>
                    rw [hupdate] at hg hq'
                    dsimp only at hg
                    cases r2 <;>
                    · dsimp only at hq'
                      rw [hg] at hq'
                      injection hq' with he
                      subst he
                      exact how
      · rw [if_pos hown]
        exact listOwnerStable_of_lists_eq rfl
  · intro db lid m caller now
    unfold migrate_list_items
    cases hfind : get_grocery_list db lid with
    | none => exact listOwnerStable_of_lists_eq rfl
    | some l0 =>
      simp only [hfind]
      by_cases hown : l0.owner = caller
      · rw [if_neg (fun hc => hc hown)]
        by_cases hemp : (get_items_by_ids db m.item_ids).isEmpty = true
        · rw [if_pos hemp]
          exact listOwnerStable_of_lists_eq rfl
        · rw [if_neg hemp]
          cases hfb : (get_items_by_ids db m.item_ids).find?
              (fun it => it.grocery_list_id != lid) with
          | some bad => exact listOwnerStable_of_lists_eq rfl
          | none =>
            simp only [hfb]
            cases hres : resolveMigrationTarget db m caller now
                "Either new_list_name or target_list_id must be provided" with
            | mk r db2 =>
              cases r with
              | error e =>
                have hr := resolveTarget_ownerStable db m caller now
                  "Either new_list_name or target_list_id must be provided"
                rw [hres] at hr
                exact hr
              | ok tid =>
                dsimp only
                cases hgt : get_grocery_list (migrate_items_to_list db2 m.item_ids tid).2 tid with
                | some t =>
                  intro lq l l' hq hq'
                  have h2 := get_list_after_resolveTarget db m caller now
                    "Either new_list_name or target_list_id must be provided" lq l hq
                  rw [hres] at h2
                  dsimp only at h2
                  rw [get_list_after_migrate, h2] at hq'
                  injection hq' with he
                  subst he
                  rfl
                | none =>
                  intro lq l l' hq hq'
                  have h2 := get_list_after_resolveTarget db m caller now
                    "Either new_list_name or target_list_id must be provided" lq l hq
                  rw [hres] at h2
                  dsimp only at h2
                  rw [get_list_after_migrate, h2] at hq'
                  injection hq' with he
                  subst he
                  rfl
      · rw [if_pos hown]
        exact listOwnerStable_of_lists_eq rfl
  · intro db lid c caller
    unfold create_new_grocery_item
    cases hfind : get_grocery_list db lid with
    | none => exact listOwnerStable_of_lists_eq rfl
    | some l0 =>
      simp only [hfind]
      by_cases hown : l0.owner = caller
      · rw [if_neg (fun hc => hc hown)]
        exact listOwnerStable_of_lists_eq rfl
      · rw [if_pos hown]
        exact listOwnerStable_of_lists_eq rfl
  · intro db iid u caller
    unfold update_grocery_item_by_id
    cases hit : get_grocery_item db iid with
    | none => exact listOwnerStable_of_lists_eq rfl
    | some it =>
      simp only [hit]
      have hupd : listOwnerStable db (update_grocery_item db iid u).2 := by
        unfold update_grocery_item
        simp only [hit]
        exact listOwnerStable_of_lists_eq rfl
      cases hp : get_grocery_list db it.grocery_list_id with
      | none =>
        cases hres : update_grocery_item db iid u with
        | mk r db2 =>
          rw [hres] at hupd
          cases r <;> exact hupd
      | some pl =>
        dsimp only
        by_cases hown : pl.owner = caller
        · rw [if_neg (fun hc => hc hown)]
          cases hres : update_grocery_item db iid u with
          | mk r db2 =>
            rw [hres] at hupd
            cases r <;> exact hupd
        · rw [if_pos hown]
          exact listOwnerStable_of_lists_eq rfl
  · intro db iid p caller
    unfold mark_item_as_purchased
    cases hit : get_grocery_item db iid with
    | none => exact listOwnerStable_of_lists_eq rfl
    | some it =>
      simp only [hit]
      have hupd : listOwnerStable db (mark_item_purchased db iid p).2 := by
        unfold mark_item_purchased
        simp only [hit]
        exact listOwnerStable_of_lists_eq rfl
      cases hp : get_grocery_list db it.grocery_list_id with
      | none =>
        cases hres : mark_item_purchased db iid p with
        | mk r db2 =>
          rw [hres] at hupd
          cases r <;> exact hupd
      | some pl =>
        dsimp only
        by_cases hown : pl.owner = caller
        · rw [if_neg (fun hc => hc hown)]
          cases hres : mark_item_purchased db iid p with
          | mk r db2 =>
            rw [hres] at hupd
            cases r <;> exact hupd
        · rw [if_pos hown]
          exact listOwnerStable_of_lists_eq rfl
  · intro db iid caller
    unfold delete_grocery_item_by_id
    cases hit : get_grocery_item db iid with
    | none => exact listOwnerStable_of_lists_eq rfl
    | some it =>
      simp only [hit]
      have hdel : listOwnerStable db (delete_grocery_item db iid).2 := by
        unfold delete_grocery_item
        simp only [hit]
        exact listOwnerStable_of_lists_eq rfl
      cases hp : get_grocery_list db it.grocery_list_id with
      | none => exact hdel
      | some pl =>
        dsimp only
        by_cases hown : pl.owner = caller
        · rw [if_neg (fun hc => hc hown)]
          exact hdel
        · rw [if_pos hown]
          exact listOwnerStable_of_lists_eq rfl

/-- Witness for C8: creating a list as alice stamps alice as owner, and
closing bob's list 3 via the update route leaves the (still readable)
list 3 with owner bob, by the theorem applied at the concrete pre- and
post-state lookups. -/
theorem list_owner_immutable_witness :
    (create_new_grocery_list db0 ⟨some "New", none, none, none, false⟩ "alice" tNow).1.owner
        = "alice" ∧
    get_grocery_list db0 3 = some listC ∧
    get_grocery_list
        (update_grocery_list_by_id db0 3 { is_closed := some true } "bob").2 3 =
      some { listC with is_closed := true } ∧
    ({ listC with is_closed := true } : GroceryList).owner = listC.owner :=
  ⟨(list_owner_immutable.1 db0 ⟨some "New", none, none, none, false⟩ "alice" tNow).1,
    by decide, by decide,
    (list_owner_immutable.2.1 db0 3 { is_closed := some true } "bob") 3 listC
      { listC with is_closed := true } (by decide) (by decide)⟩
end Grocery
